import Mathlib

/-!
Verification of the private-data collection resolver and access-control
filter layer (`core/common/privdata/collection.go`) against its
natural-language specification.

The Go file declares the `Collection`, `CollectionAccessPolicy`, `Filter`
and `CollectionStore` contracts and implements the KVS key construction
(`BuildCollectionKVSKey` with the `collectionSeparator` and
`collectionSuffix` constants).  Definitions below embed the concrete code
directly; the resolution and policy-construction behaviour that the Go
file only declares through interfaces is modelled from the specification,
each such definition carrying a doc comment starting `Modelled from the
spec:`.
-/

namespace Privdata

/-! ## Data model -/

/-- A peer's serialized identity: the MSP (organization) identifier plus the
identity bytes.  The organization is what the access filter inspects. -/
structure SerializedIdentity where
  mspid : String
  idBytes : List Nat
deriving DecidableEq, Repr

/-- `common.SignedData`: a message, the signer's serialized identity, and a
signature over the message. -/
structure SignedData where
  data : List Nat
  identity : SerializedIdentity
  signature : List Nat
deriving DecidableEq, Repr

/-- `common.CollectionCriteria`: identifies one collection instance.
`txId` is the transaction-identifier context; the empty string means
"no transaction context". -/
structure CollectionCriteria where
  channel : String
  txId : String
  collection : String
  namespaceName : String
deriving DecidableEq, Repr

/-- One collection's stored configuration inside a configuration package:
its name, its member organizations, and its dissemination peer counts. -/
structure StaticCollectionConfig where
  name : String
  memberOrgsPolicy : List String
  requiredPeerCount : Int
  maximumPeerCount : Int
deriving DecidableEq, Repr

/-- `common.CollectionConfigPackage`: the named collection configurations of
one namespace, as committed by a single configuration transaction. -/
abbrev CollectionConfigPackage := List StaticCollectionConfig

/-- A resolved `Collection` view: its ID and member organizations. -/
structure Collection where
  collectionID : String
  memberOrgs : List String
deriving DecidableEq, Repr

/-- A constructed `CollectionAccessPolicy` view: member organizations and
the dissemination peer-count bounds. -/
structure CollectionAccessPolicy where
  memberOrgs : List String
  requiredPeerCount : Int
  maximumPeerCount : Int
deriving DecidableEq, Repr

/-- `Filter` is a predicate over signed data, exactly as in the source:
`type Filter func(common.SignedData) bool`. -/
abbrev Filter := SignedData → Bool

/-- The error taxonomy of the specification: `NotFound` (expected absence),
`StorageUnavailable` (transient ledger failure), `MalformedConfig`
(configuration invariant violation). -/
inductive RetrieveError where
  | NotFound
  | StorageUnavailable
  | MalformedConfig
deriving DecidableEq, Repr

/-! ## KVS key construction (concrete code in the source) -/

/-- `collectionSeparator`: the separator used to build the KVS key storing
the collections of a chaincode. -/
def collectionSeparator : String := "~"

/-- `collectionSuffix`: the suffix of the KVS key storing the collections of
a chaincode. -/
def collectionSuffix : String := "collection"

/-- `BuildCollectionKVSKey` returns the KVS key string for a chaincode,
given its name: `ccname + collectionSeparator + collectionSuffix`. -/
def BuildCollectionKVSKey (ccname : String) : String :=
  ccname ++ collectionSeparator ++ collectionSuffix

/-! ## Ledger model and resolution (modelled from the spec) -/

/-- Modelled from the spec: the ledger is append-only and versioned; a
commit is either a configuration update for a namespace or an ordinary
transaction identified by its TxID (§3 CollectionConfigPackage lifecycle,
§5). -/
inductive LedgerEntry where
  | configUpdate (ns : String) (pkg : CollectionConfigPackage)
  | tx (txId : String)
deriving DecidableEq, Repr

/-- A ledger is the list of committed entries in commit order. -/
abbrev Ledger := List LedgerEntry

/-- Does an entry commit the transaction `txId`? -/
def LedgerEntry.isTx (e : LedgerEntry) (txId : String) : Bool :=
  match e with
  | .configUpdate _ _ => false
  | .tx t => t = txId

/-- Modelled from the spec: "If the TxID exists in the ledger" (source doc
comment of `RetrieveCollection`). -/
def txExists (ledger : Ledger) (txId : String) : Bool :=
  ledger.any (fun e => e.isTx txId)

/-- Modelled from the spec: the latest (most recently committed)
configuration package for a namespace, if any (§4.2 step 1). -/
def latestConfig (ledger : Ledger) (ns : String) : Option CollectionConfigPackage :=
  match ledger with
  | [] => none
  | e :: rest =>
    match latestConfig rest ns with
    | some pkg => some pkg
    | none =>
      match e with
      | .configUpdate ns2 pkg => if ns2 = ns then some pkg else none
      | .tx _ => none

/-- Modelled from the spec: the entries committed strictly before the
commit of transaction `txId` (§4.2 step 2: the view the transaction itself
would have observed). -/
def entriesBeforeTx (ledger : Ledger) (txId : String) : Ledger :=
  match ledger with
  | [] => []
  | e :: rest =>
    if e.isTx txId then [] else e :: entriesBeforeTx rest txId

/-- Modelled from the spec: `GetConfigAsOf(namespace, optional txContext)`
(§6), the single ledger operation the core consumes.  Empty `txContext`
resolves the latest committed configuration; a `txContext` naming a
transaction that exists in the ledger resolves the configuration committed
strictly before that transaction's commit; a `txContext` naming no ledger
transaction falls back to the latest configuration (source doc comment:
"Else - it's the latest configuration for the collection"). -/
def GetConfigAsOf (ledger : Ledger) (ns : String) (txContext : String) :
    Option CollectionConfigPackage :=
  if txContext = "" then latestConfig ledger ns
  else if txExists ledger txContext then
    latestConfig (entriesBeforeTx ledger txContext) ns
  else latestConfig ledger ns

/-- Look up a collection entry by name inside a resolved package
(§4.2 step 3). -/
def findCollectionConfig (pkg : CollectionConfigPackage) (name : String) :
    Option StaticCollectionConfig :=
  pkg.find? (fun c => c.name = name)

/-- Modelled from the spec: the ledger as seen by the store; `none` means
the underlying ledger lookup failed (the StorageUnavailable failure mode of
§4.2). -/
abbrev LedgerView := Option Ledger

/-- Modelled from the spec: the shared resolution steps 1-3 of §4.2 — read
the ledger (failing with `StorageUnavailable` when it is unreachable) and
resolve the namespace's configuration package as of the criteria's
transaction context, failing with `NotFound` when the namespace has no
configuration at the resolved point. -/
def resolveConfig (lv : LedgerView) (cc : CollectionCriteria) :
    Except RetrieveError CollectionConfigPackage :=
  match lv with
  | none => .error .StorageUnavailable
  | some ledger =>
    match GetConfigAsOf ledger cc.namespaceName cc.txId with
    | none => .error .NotFound
    | some pkg => .ok pkg

/-- Modelled from the spec: AccessPolicy construction (§3, §4.2 step 4).
Construction fails with `MalformedConfig` when
`maximumPeerCount < requiredPeerCount`; otherwise the policy view carries
the member organizations and the two peer-count bounds. -/
def mkAccessPolicy (c : StaticCollectionConfig) :
    Except RetrieveError CollectionAccessPolicy :=
  if c.maximumPeerCount < c.requiredPeerCount then .error .MalformedConfig
  else .ok { memberOrgs := c.memberOrgsPolicy,
             requiredPeerCount := c.requiredPeerCount,
             maximumPeerCount := c.maximumPeerCount }

/-- Extract the signer's organizational identity from a signed assertion
(§4.3; the Identity in the SignedData is a SerializedIdentity). -/
def extractOrg (sd : SignedData) : String :=
  sd.identity.mspid

/-- Modelled from the spec: `AccessFilter()` compiles the stored
member-organization set into a predicate that answers whether the signer's
organization is a member of `memberOrgs` (§4.3 baseline semantics). -/
def AccessFilter (p : CollectionAccessPolicy) : Filter :=
  fun sd => p.memberOrgs.contains (extractOrg sd)

/-- Modelled from the spec: `RetrieveCollection` — resolve the package,
look up the named collection (failing with `NotFound` when absent), and
build the `Collection` view (§4.2). -/
def RetrieveCollection (lv : LedgerView) (cc : CollectionCriteria) :
    Except RetrieveError Collection :=
  match resolveConfig lv cc with
  | .error e => .error e
  | .ok pkg =>
    match findCollectionConfig pkg cc.collection with
    | none => .error .NotFound
    | some c => .ok { collectionID := c.name, memberOrgs := c.memberOrgsPolicy }

/-- Modelled from the spec: `RetrieveCollectionAccessPolicy` — same shared
resolution, then AccessPolicy construction (§4.2). -/
def RetrieveCollectionAccessPolicy (lv : LedgerView) (cc : CollectionCriteria) :
    Except RetrieveError CollectionAccessPolicy :=
  match resolveConfig lv cc with
  | .error e => .error e
  | .ok pkg =>
    match findCollectionConfig pkg cc.collection with
    | none => .error .NotFound
    | some c => mkAccessPolicy c

/-- Modelled from the spec: `RetrieveCollectionConfigPackage` — the shared
resolution of §4.2, including step 3's lookup of the collection entry by
name (the spec declares steps 1-3 shared by all three Retrieve*
operations: absence of the named collection fails with NotFound), then
returning the raw resolved package. -/
def RetrieveCollectionConfigPackage (lv : LedgerView) (cc : CollectionCriteria) :
    Except RetrieveError CollectionConfigPackage :=
  match resolveConfig lv cc with
  | .error e => .error e
  | .ok pkg =>
    match findCollectionConfig pkg cc.collection with
    | none => .error .NotFound
    | some _ => .ok pkg

/-! ## Helper lemmas -/

/-- The character list of a built key is the namespace's characters followed
by the separator character and the suffix's characters. -/
theorem buildKey_data (ns : String) :
    (BuildCollectionKVSKey ns).data = ns.data ++ ('~' :: collectionSuffix.data) := by
  show (ns ++ collectionSeparator ++ collectionSuffix).data = _
  rw [String.data_append, String.data_append, List.append_assoc]
  rfl

/-- Key construction is injective on all strings: the appended tail cancels
on the right. -/
theorem buildKey_inj (a b : String)
    (h : BuildCollectionKVSKey a = BuildCollectionKVSKey b) : a = b := by
  have hd := congrArg String.data h
  rw [buildKey_data, buildKey_data] at hd
  exact String.ext (List.append_cancel_right hd)

/-- A ledger extended past the commit of T still contains T. -/
theorem txExists_append_tx (pre post : Ledger) (T : String) :
    txExists (pre ++ LedgerEntry.tx T :: post) T = true := by
  simp [txExists, LedgerEntry.isTx]

/-- If T was not committed in the prefix, the entries before T's commit in
the extended ledger are exactly the prefix. -/
theorem entriesBeforeTx_append (pre post : Ledger) (T : String)
    (hpre : txExists pre T = false) :
    entriesBeforeTx (pre ++ LedgerEntry.tx T :: post) T = pre := by
  induction pre with
  | nil => simp [entriesBeforeTx, LedgerEntry.isTx]
  | cons e rest ih =>
    simp only [txExists, List.any_cons, Bool.or_eq_false_iff] at hpre
    simp only [List.cons_append, entriesBeforeTx, hpre.1, Bool.false_eq_true,
      if_false, List.cons.injEq, true_and]
    exact ih hpre.2

/-- Resolution with the context of transaction T, committed right after the
prefix, sees exactly the latest configuration of the prefix — later entries
do not matter. -/
theorem getConfigAsOf_txContext (pre post : Ledger) (ns T : String)
    (hT : T ≠ "") (hpre : txExists pre T = false) :
    GetConfigAsOf (pre ++ LedgerEntry.tx T :: post) ns T = latestConfig pre ns := by
  simp [GetConfigAsOf, hT, txExists_append_tx, entriesBeforeTx_append pre post T hpre]

/-- A successfully constructed access policy satisfies the peer-count
bound. -/
theorem mkAccessPolicy_ok_le (c : StaticCollectionConfig)
    (p : CollectionAccessPolicy) (h : mkAccessPolicy c = .ok p) :
    p.requiredPeerCount ≤ p.maximumPeerCount := by
  unfold mkAccessPolicy at h
  split at h
  · exact absurd h (by simp)
  · rename_i hge
    cases h
    exact le_of_not_lt hge

end Privdata

namespace Privdata

/-! ## Claims about the concrete key-building code -/

/-- C5: For every namespace string ns, BuildCollectionKVSKey returns exactly
ns followed by the separator "~" followed by the literal suffix
"collection"; as a Lean function it is pure and total with no error
outcome. -/
theorem buildCollectionKVSKey_spec (ns : String) :
    BuildCollectionKVSKey ns = ns ++ "~" ++ "collection" := rfl

/-- C9: BuildCollectionKVSKey is injective over all input strings with no
alphabet restriction, and it accepts (performs no validation on) the empty
namespace and namespaces containing the separator character. -/
theorem buildCollectionKVSKey_injective_unrestricted :
    (∀ a b : String,
      BuildCollectionKVSKey a = BuildCollectionKVSKey b → a = b) ∧
    BuildCollectionKVSKey "" = "~collection" ∧
    BuildCollectionKVSKey "a~b" = "a~b~collection" :=
  ⟨buildKey_inj, by decide, by decide⟩

/-- Witness for C9: the injectivity implication applied at a concrete
input. -/
theorem buildCollectionKVSKey_injective_unrestricted_witness :
    BuildCollectionKVSKey "mycc" = BuildCollectionKVSKey "mycc" ∧
    ("mycc" : String) = "mycc" :=
  ⟨rfl, buildCollectionKVSKey_injective_unrestricted.1 "mycc" "mycc" rfl⟩

/-- C6: For distinct namespaces over the legal alphabet (no "~"), the built
keys differ, and each key contains exactly one separator occurrence,
followed by the literal suffix "collection". -/
theorem buildCollectionKVSKey_separated_injective (ns1 ns2 : String)
    (h1 : ns1.data.count '~' = 0) (h2 : ns2.data.count '~' = 0)
    (hne : ns1 ≠ ns2) :
    BuildCollectionKVSKey ns1 ≠ BuildCollectionKVSKey ns2 ∧
    (BuildCollectionKVSKey ns1).data.count '~' = 1 ∧
    ∃ pre, (BuildCollectionKVSKey ns1).data = pre ++ '~' :: collectionSuffix.data ∧
      pre.count '~' = 0 := by
  refine ⟨fun h => hne (buildKey_inj ns1 ns2 h), ?_, ns1.data, buildKey_data ns1, h1⟩
  rw [buildKey_data, List.count_append, h1, List.count_cons]
  decide

/-- Witness for C6: concrete distinct tilde-free namespaces. -/
theorem buildCollectionKVSKey_separated_injective_witness :
    ("cc1" : String).data.count '~' = 0 ∧
    ("cc2" : String).data.count '~' = 0 ∧
    ("cc1" : String) ≠ "cc2" ∧
    BuildCollectionKVSKey "cc1" ≠ BuildCollectionKVSKey "cc2" :=
  ⟨by decide, by decide, by decide,
    (buildCollectionKVSKey_separated_injective "cc1" "cc2"
      (by decide) (by decide) (by decide)).1⟩

/-! ## Claims about resolution and access policies (spec-modelled) -/

/-- C1: resolving with the context of a transaction T that exists in the
ledger returns the configuration committed and effective strictly before
T's own commit — entries committed after T (including later configuration
updates) are ignored, and the result coincides with a latest-configuration
lookup over the ledger as it stood before T; with an empty txContext the
resolution is against the latest committed configuration. -/
theorem retrieveCollection_resolves_asOf_txContext (pre post : Ledger)
    (cc : CollectionCriteria) (hT : cc.txId ≠ "")
    (hpre : txExists pre cc.txId = false) :
    RetrieveCollection (some (pre ++ LedgerEntry.tx cc.txId :: post)) cc
      = RetrieveCollection (some pre) { cc with txId := "" } ∧
    (∀ (ledger : Ledger) (ns : String),
      GetConfigAsOf ledger ns "" = latestConfig ledger ns) := by
  constructor
  · simp only [RetrieveCollection, resolveConfig]
    rw [getConfigAsOf_txContext pre post cc.namespaceName cc.txId hT hpre]
    simp [GetConfigAsOf]
  · intro ledger ns
    simp [GetConfigAsOf]

/-- Demo for C1: collection C created with members A,B before T commits. -/
def c1pre : Ledger :=
  [LedgerEntry.configUpdate "ns" [⟨"C", ["A", "B"], 0, 1⟩]]

/-- Demo for C1: after T commits, C is updated to members A,B,Corg. -/
def c1post : Ledger :=
  [LedgerEntry.configUpdate "ns" [⟨"C", ["A", "B", "Corg"], 0, 1⟩]]

/-- Demo criteria for C1: collection C of namespace ns in T's context. -/
def c1cc : CollectionCriteria := ⟨"ch", "T", "C", "ns"⟩

/-- Witness for C1: re-resolving with T's context after the later update
still yields memberOrgs A,B. -/
theorem retrieveCollection_resolves_asOf_txContext_witness :
    c1cc.txId ≠ "" ∧ txExists c1pre c1cc.txId = false ∧
    RetrieveCollection (some (c1pre ++ LedgerEntry.tx c1cc.txId :: c1post)) c1cc
      = RetrieveCollection (some c1pre) { c1cc with txId := "" } ∧
    RetrieveCollection (some (c1pre ++ LedgerEntry.tx c1cc.txId :: c1post)) c1cc
      = .ok ⟨"C", ["A", "B"]⟩ :=
  ⟨by decide, by decide,
    (retrieveCollection_resolves_asOf_txContext c1pre c1post c1cc
      (by decide) (by decide)).1,
    rfl⟩

/-- C2: the filter returned by AccessFilter answers true exactly when the
organization extracted from the assertion's signer identity is a member of
the policy's member-organization set. -/
theorem accessFilter_true_iff_member (p : CollectionAccessPolicy)
    (sd : SignedData) :
    AccessFilter p sd = true ↔ extractOrg sd ∈ p.memberOrgs :=
  List.elem_iff

/-- C3: every successfully constructed access policy satisfies
maximumPeerCount >= requiredPeerCount, and a configuration with
maximumPeerCount < requiredPeerCount makes construction fail with
MalformedConfig instead of returning a policy. -/
theorem accessPolicy_peer_count_invariant :
    (∀ (lv : LedgerView) (cc : CollectionCriteria) (p : CollectionAccessPolicy),
      RetrieveCollectionAccessPolicy lv cc = .ok p →
        p.requiredPeerCount ≤ p.maximumPeerCount) ∧
    (∀ c : StaticCollectionConfig,
      c.maximumPeerCount < c.requiredPeerCount →
        mkAccessPolicy c = .error .MalformedConfig) := by
  constructor
  · intro lv cc p h
    unfold RetrieveCollectionAccessPolicy at h
    split at h
    · exact absurd h (by simp)
    · split at h
      · exact absurd h (by simp)
      · rename_i c _
        exact mkAccessPolicy_ok_le c p h
  · intro c h
    simp [mkAccessPolicy, h]

/-- Witness for C3: a well-formed configuration yields a policy satisfying
the bound; required=5, maximum=3 fails with MalformedConfig. -/
theorem accessPolicy_peer_count_invariant_witness :
    RetrieveCollectionAccessPolicy
        (some [LedgerEntry.configUpdate "ns" [⟨"C", ["A"], 1, 2⟩]])
        ⟨"ch", "", "C", "ns"⟩ = .ok ⟨["A"], 1, 2⟩ ∧
    (⟨["A"], 1, 2⟩ : CollectionAccessPolicy).requiredPeerCount
      ≤ (⟨["A"], 1, 2⟩ : CollectionAccessPolicy).maximumPeerCount ∧
    (⟨"C", ["A"], 5, 3⟩ : StaticCollectionConfig).maximumPeerCount
      < (⟨"C", ["A"], 5, 3⟩ : StaticCollectionConfig).requiredPeerCount ∧
    mkAccessPolicy ⟨"C", ["A"], 5, 3⟩ = .error .MalformedConfig :=
  ⟨rfl,
    accessPolicy_peer_count_invariant.1
      (some [LedgerEntry.configUpdate "ns" [⟨"C", ["A"], 1, 2⟩]])
      ⟨"ch", "", "C", "ns"⟩ ⟨["A"], 1, 2⟩ rfl,
    by decide,
    accessPolicy_peer_count_invariant.2 ⟨"C", ["A"], 5, 3⟩ (by decide)⟩

/-- C4: when the criteria resolve to a valid package lacking the named
collection, every Retrieve* operation fails with NotFound; when the
namespace has no configuration at the resolved point, all three retrievals
fail with NotFound; and NotFound is distinct from StorageUnavailable. -/
theorem retrieve_absent_collection_notFound :
    (∀ (ledger : Ledger) (cc : CollectionCriteria)
        (pkg : CollectionConfigPackage),
      resolveConfig (some ledger) cc = .ok pkg →
      findCollectionConfig pkg cc.collection = none →
      RetrieveCollection (some ledger) cc = .error .NotFound ∧
      RetrieveCollectionAccessPolicy (some ledger) cc = .error .NotFound ∧
      RetrieveCollectionConfigPackage (some ledger) cc = .error .NotFound) ∧
    (∀ (ledger : Ledger) (cc : CollectionCriteria),
      GetConfigAsOf ledger cc.namespaceName cc.txId = none →
      RetrieveCollection (some ledger) cc = .error .NotFound ∧
      RetrieveCollectionAccessPolicy (some ledger) cc = .error .NotFound ∧
      RetrieveCollectionConfigPackage (some ledger) cc = .error .NotFound) ∧
    RetrieveError.NotFound ≠ RetrieveError.StorageUnavailable := by
  refine ⟨?_, ?_, by decide⟩
  · intro ledger cc pkg hres hfind
    simp only [RetrieveCollection, RetrieveCollectionAccessPolicy,
      RetrieveCollectionConfigPackage, hres, hfind]
    exact ⟨trivial, trivial, trivial⟩
  · intro ledger cc hnone
    have hres : resolveConfig (some ledger) cc = .error .NotFound := by
      simp only [resolveConfig, hnone]
    simp only [RetrieveCollection, RetrieveCollectionAccessPolicy,
      RetrieveCollectionConfigPackage, hres]
    exact ⟨trivial, trivial, trivial⟩

/-- Demo ledger for C4: namespace ns configured with only collection C. -/
def c4ledger : Ledger :=
  [LedgerEntry.configUpdate "ns" [⟨"C", ["A"], 0, 1⟩]]

/-- Witness for C4: retrieving absent collection X from configured ns fails
with NotFound for all three operations, and retrieving from unconfigured
namespace zz yields NotFound as well. -/
theorem retrieve_absent_collection_notFound_witness :
    resolveConfig (some c4ledger) ⟨"ch", "", "X", "ns"⟩ = .ok [⟨"C", ["A"], 0, 1⟩] ∧
    findCollectionConfig [⟨"C", ["A"], 0, 1⟩] "X" = none ∧
    RetrieveCollection (some c4ledger) ⟨"ch", "", "X", "ns"⟩ = .error .NotFound ∧
    RetrieveCollectionAccessPolicy (some c4ledger) ⟨"ch", "", "X", "ns"⟩
      = .error .NotFound ∧
    RetrieveCollectionConfigPackage (some c4ledger) ⟨"ch", "", "X", "ns"⟩
      = .error .NotFound ∧
    GetConfigAsOf c4ledger "zz" "" = none ∧
    RetrieveCollectionConfigPackage (some c4ledger) ⟨"ch", "", "C", "zz"⟩
      = .error .NotFound :=
  ⟨rfl, rfl,
    (retrieve_absent_collection_notFound.1 c4ledger ⟨"ch", "", "X", "ns"⟩
      [⟨"C", ["A"], 0, 1⟩] rfl rfl).1,
    (retrieve_absent_collection_notFound.1 c4ledger ⟨"ch", "", "X", "ns"⟩
      [⟨"C", ["A"], 0, 1⟩] rfl rfl).2.1,
    (retrieve_absent_collection_notFound.1 c4ledger ⟨"ch", "", "X", "ns"⟩
      [⟨"C", ["A"], 0, 1⟩] rfl rfl).2.2,
    rfl,
    (retrieve_absent_collection_notFound.2.1 c4ledger ⟨"ch", "", "C", "zz"⟩
      rfl).2.2⟩

/-- C7: the filter's verdict is a deterministic function of the policy's
member-organization set and the assertion's signer organization alone —
two invocations over policies with equal member sets and assertions with
equal signer organizations agree, whatever the other fields (peer counts,
payload, signature bytes) are; policies are immutable values, so invocation
cannot change them. -/
theorem accessFilter_deterministic_stateless (p q : CollectionAccessPolicy)
    (sd1 sd2 : SignedData) (hmem : p.memberOrgs = q.memberOrgs)
    (horg : extractOrg sd1 = extractOrg sd2) :
    AccessFilter p sd1 = AccessFilter q sd2 := by
  simp [AccessFilter, hmem, horg]

/-- Witness for C7: same member set and signer organization, different peer
counts, payloads and signatures — same verdict. -/
theorem accessFilter_deterministic_stateless_witness :
    (⟨["A"], 1, 2⟩ : CollectionAccessPolicy).memberOrgs
      = (⟨["A"], 0, 5⟩ : CollectionAccessPolicy).memberOrgs ∧
    extractOrg ⟨[1], ⟨"A", []⟩, [2]⟩ = extractOrg ⟨[9], ⟨"A", [7]⟩, [8]⟩ ∧
    AccessFilter ⟨["A"], 1, 2⟩ ⟨[1], ⟨"A", []⟩, [2]⟩
      = AccessFilter ⟨["A"], 0, 5⟩ ⟨[9], ⟨"A", [7]⟩, [8]⟩ :=
  ⟨rfl, rfl,
    accessFilter_deterministic_stateless ⟨["A"], 1, 2⟩ ⟨["A"], 0, 5⟩
      ⟨[1], ⟨"A", []⟩, [2]⟩ ⟨[9], ⟨"A", [7]⟩, [8]⟩ rfl rfl⟩

/-- Counterexample for C8: a configuration with requiredPeerCount =
maximumPeerCount = 1 constructs successfully, and its maximum is not
strictly greater than its required count. -/
theorem maximumPeerCount_not_strict_counterexample :
    mkAccessPolicy ⟨"C", ["A"], 1, 1⟩ = .ok ⟨["A"], 1, 1⟩ ∧
    ¬ ((⟨["A"], 1, 1⟩ : CollectionAccessPolicy).requiredPeerCount
        < (⟨["A"], 1, 1⟩ : CollectionAccessPolicy).maximumPeerCount) :=
  ⟨rfl, by decide⟩

/-- C8 (amended): every constructed access policy satisfies the non-strict
bound maximumPeerCount >= requiredPeerCount; equality is possible. -/
theorem maximumPeerCount_ge_required (c : StaticCollectionConfig)
    (p : CollectionAccessPolicy) (h : mkAccessPolicy c = .ok p) :
    p.requiredPeerCount ≤ p.maximumPeerCount :=
  mkAccessPolicy_ok_le c p h

/-- Witness for C8 (amended): a concrete constructed policy satisfies the
non-strict bound. -/
theorem maximumPeerCount_ge_required_witness :
    mkAccessPolicy ⟨"C", ["A"], 1, 2⟩ = .ok ⟨["A"], 1, 2⟩ ∧
    (⟨["A"], 1, 2⟩ : CollectionAccessPolicy).requiredPeerCount
      ≤ (⟨["A"], 1, 2⟩ : CollectionAccessPolicy).maximumPeerCount :=
  ⟨rfl,
    maximumPeerCount_ge_required ⟨"C", ["A"], 1, 2⟩ ⟨["A"], 1, 2⟩ rfl⟩

end Privdata
